import Mathlib

/-!
Shallow embedding of the connection-lifecycle and query-execution engine of
`base/data_store/provider.py` (classes `__DataStoreBase`, `RDBMSBase`,
`DataStoreMySQL`, `DataStoreProvider`), together with theorems settling the
frozen claims about it.

Modelling conventions:
* Python strings are modelled as `Str := List Char` (kernel-friendly), with
  `chars` converting Lean string literals.
* The pymysql driver is an oracle: each statement execution is described by an
  `ExecOutcome` argument (what `cursor.execute` would do).  Fresh connection
  handles are identified by a `Nat` supplied by the caller (`freshHandle`).
* External collaborators (`Context.env_unit_test`, `time.time`, the
  `ConfigManager` connection data) live in an `Env` record; the Memcache
  collaborator is an association list `Cache` threaded through the operations
  that touch it.
* A raised Python exception is an `Except.error`; the session state at the
  moment of the raise is returned alongside, since Python exceptions leave
  earlier attribute mutations in place.
-/

set_option autoImplicit false
set_option linter.unusedVariables false
set_option synthInstance.maxSize 512

deriving instance DecidableEq for Except

namespace TinyAPI

/-- Python strings, modelled as lists of characters. -/
abbrev Str : Type := List Char

/-- Convert a Lean string literal to the `Str` model. -/
def chars (s : String) : Str := s.toList

/-- Association-list lookup, first match wins (models Python dict lookup). -/
def alookup {β : Type} : List (Str × β) → Str → Option β
  | [], _ => none
  | (k, v) :: rest, key => if k = key then some v else alookup rest key

/-- Association-list update: replace the binding if present, else append
(models `d[k] = v` on a Python dict). -/
def aset {β : Type} : List (Str × β) → Str → β → List (Str × β)
  | [], key, v => [(key, v)]
  | (k, w) :: rest, key, v =>
      if k = key then (key, v) :: rest else (k, w) :: aset rest key v

/-- Association-list removal of a key (models `Memcache.purge(key)`). -/
def aremove {β : Type} (l : List (Str × β)) (key : Str) : List (Str × β) :=
  l.filter (fun kv => kv.1 ≠ key)

/-- A result row, as produced by `pymysql.cursors.DictCursor`: a mapping from
column name to value.  Cell values are modelled as strings; no claim inspects
a cell's contents. -/
abbrev Row : Type := List (Str × Str)

/-- The external Memcache collaborator's key-value store: cached result sets
keyed by cache key. -/
abbrev Cache : Type := List (Str × List Row)

/-- Exceptions raised by the pymysql driver or the Python runtime, as seen at
the `except` clauses of `provider.py`. -/
inductive PyErr : Type where
  | integrityError (errno : Nat) (message : Str)
  | internalError (errno : Nat) (message : Str)
  | programmingError (errno : Nat) (message : Str)
  | indexError
  | typeError
  | attributeError
  | other (message : Str)
deriving DecidableEq

/-- The domain error taxonomy of `base/data_store/exception.py` as raised by
`provider.py`, plus `driver` for driver exceptions re-raised unchanged. -/
inductive DSError : Type where
  | dataStoreException (message : Str)
  | columnCannotBeNull (column : Str)
  | duplicateKey (message : Str)
  | foreignKey (message : Str)
  | illegalMixOfCollations (sql : Str) (binds : List Str)
  | driver (e : PyErr)
deriving DecidableEq

/-- What `cursor.execute` does for one statement: succeed with a row count,
a last-insert id and the rows `fetchall` would return, or raise. -/
inductive ExecOutcome : Type where
  | ok (rowcount : Int) (lastrowid : Nat) (fetched : List Row)
  | err (e : PyErr)
deriving DecidableEq

/-- The value returned by `DataStoreMySQL.query`: a list of rows for a read
statement, or Python `True` for a write statement. -/
inductive QueryResult : Type where
  | rows (rs : List Row)
  | success
deriving DecidableEq

/-- External collaborators that `provider.py` consults: the test-isolation
flag `Context.env_unit_test()`, the clock `time.time()`, and the
`ConfigManager` value `mysql connection data` (connection name to
(host, user, password)). -/
structure Env : Type where
  unitTest : Bool
  now : Nat
  connectionData : List (Str × (Str × Str × Str))
deriving DecidableEq

/-- The mutable attributes of one `DataStoreMySQL` instance.

Python name mangling makes `self.__mysql` inside the base class `RDBMSBase`
refer to the attribute `_RDBMSBase__mysql`, a different attribute from the
`_DataStoreMySQL__mysql` that `DataStoreMySQL.__init__`, `connect`, `commit`,
`rollback` and `close` use.  The model therefore carries both: `mysql` is
`_DataStoreMySQL__mysql` (the physical handle, a `Nat` identifier) and
`rdbms_mysql` is `_RDBMSBase__mysql` (the attribute `RDBMSBase.select_db`
actually writes). -/
structure SessionState : Type where
  connection_name : Option Str
  charset : Str
  db_name : Option Str
  memcache_key : Option Str
  memcache_ttl : Option Nat
  ping_interval : Nat
  inactive_since : Nat
  requests : Nat
  hits : Nat
  persistent : Bool
  mysql : Option Nat
  rdbms_mysql : Option Nat
  cursor : Option Unit
  row_count : Option Int
  last_row_id : Option Nat
deriving DecidableEq

/-- Python truthiness of an optional string: `None` and the empty string are
falsy (`if not self._connection_name`). -/
def pyTruthy : Option Str → Bool
  | none => false
  | some s => s ≠ []

/-- Translation of `RDBMSBase.select_db` (provider.py lines 197-204).  The
`self.__mysql = None` on line 200 is written inside `RDBMSBase`, so it
assigns the mangled attribute `_RDBMSBase__mysql` (`rdbms_mysql` here), not
the `_DataStoreMySQL__mysql` handle that `connect` consults. -/
def select_db (s : SessionState) (connection db : Str) : SessionState :=
  let s1 :=
    if s.connection_name ≠ some connection ∨ s.db_name ≠ some db then
      { s with rdbms_mysql := none }
    else s
  { s1 with connection_name := some connection, db_name := some db }

/-- The `if self.persistent is True: self.requests += 1` step that opens
`DataStoreMySQL.connect` (provider.py lines 269-270). -/
def bump_requests (s0 : SessionState) : SessionState :=
  if s0.persistent then { s0 with requests := s0.requests + 1 } else s0

/-- The body of `DataStoreMySQL.connect` after the request counter update
(provider.py lines 272-311).  `freshHandle` stands for the connection object
a successful `pymysql.connect` call would return.  On a raise, the error is
paired with the session state at that moment. -/
def connect_core (env : Env) (freshHandle : Nat) (s : SessionState) :
    Except (DSError × SessionState) SessionState :=
  if s.mysql.isSome then
    if s.persistent then
      if s.ping_interval - 3 ≤ env.now - s.inactive_since then
        Except.ok { s with inactive_since := env.now }
      else
        Except.ok { s with hits := s.hits + 1 }
    else
      Except.ok s
  else
    if ¬ pyTruthy s.connection_name then
      Except.error
        (DSError.dataStoreException (chars
          ("cannot connect to MySQL because a connection name has not "
            ++ "been provided")), s)
    else
      match alookup env.connectionData (s.connection_name.getD []) with
      | none =>
          Except.error
            (DSError.dataStoreException
              (chars "the MySQL connection name you provided is invalid"), s)
      | some _ =>
          if ¬ pyTruthy s.db_name then
            Except.error
              (DSError.dataStoreException (chars
                ("cannot connection to MySQL because no database name was "
                  ++ "selected")), s)
          else
            Except.ok
              { s with mysql := some freshHandle, inactive_since := env.now }

/-- Translation of `DataStoreMySQL.connect` (provider.py lines 267-311):
the request-counter update followed by the reuse/ping/open logic. -/
def connect (env : Env) (freshHandle : Nat) (s0 : SessionState) :
    Except (DSError × SessionState) SessionState :=
  connect_core env freshHandle (bump_requests s0)

/-- Translation of `RDBMSBase.memcache` (provider.py lines 115-119): arm the
one-shot cache directive. -/
def memcache (s : SessionState) (key : Str) (ttl : Nat) : SessionState :=
  { s with memcache_key := some key, memcache_ttl := some ttl }

/-- Translation of `RDBMSBase._reset_memcache` (provider.py lines 187-189). -/
def reset_memcache (s : SessionState) : SessionState :=
  { s with memcache_key := none, memcache_ttl := none }

/-- Translation of `RDBMSBase.memcache_retrieve` (provider.py lines 132-139):
returns `None` when no cache key is armed or the test-isolation flag is set,
otherwise looks the key up in the Memcache collaborator. -/
def memcache_retrieve (env : Env) (cache : Cache) (s : SessionState) :
    Option (List Row) :=
  match s.memcache_key with
  | none => none
  | some key => if env.unitTest then none else alookup cache key

/-- Translation of `RDBMSBase.memcache_store` (provider.py lines 142-154):
a no-op when no key is armed or under the test-isolation flag. -/
def memcache_store (env : Env) (cache : Cache) (s : SessionState)
    (data : List Row) : Cache :=
  match s.memcache_key with
  | none => cache
  | some key => if env.unitTest then cache else aset cache key data

/-- Translation of `RDBMSBase.memcache_purge` (provider.py lines 122-129):
a no-op when no key is armed or under the test-isolation flag. -/
def memcache_purge (env : Env) (cache : Cache) (s : SessionState) : Cache :=
  match s.memcache_key with
  | none => cache
  | some key => if env.unitTest then cache else aremove cache key

/-- Translation of `DataStoreMySQL.__get_cursor` (provider.py lines 452-458):
reuse the open cursor if any, else open one. -/
def get_cursor (s : SessionState) : SessionState :=
  if s.cursor.isSome then s else { s with cursor := some () }

/-- Translation of `DataStoreMySQL.__close_cursor` (provider.py
lines 246-249). -/
def close_cursor (s : SessionState) : SessionState :=
  { s with cursor := none }

/-- Translation of `DataStoreMySQL.get_last_row_id` (provider.py
lines 461-462). -/
def get_last_row_id (s : SessionState) : Option Nat :=
  s.last_row_id

/-- The prefix `Column '` of the driver's not-null message (apostrophes
written as escapes). -/
def notNullHead : Str := chars "Column \x27"

/-- The part `' cannot be null` of the driver's not-null message that follows
the captured column name. -/
def notNullMarker : Str := chars "\x27 cannot be null"

/-- Auxiliary search for the greedy capture group: the largest split point
`i ≤ fuel` of `rest` at which `notNullMarker` starts.  Python's `(.*)` is
greedy and the pattern has no end anchor, so the group extends to the last
occurrence of the marker. -/
def greedySplit (rest : Str) : Nat → Option Str
  | 0 => if notNullMarker.isPrefixOf rest then some [] else none
  | i + 1 =>
      if notNullMarker.isPrefixOf (rest.drop (i + 1)) then
        some (rest.take (i + 1))
      else greedySplit rest i

/-- Translation of `DataStoreMySQL.__extract_not_null_column` (provider.py
lines 419-420): the capture group of
`re.match("Column '(.*)' cannot be null", message)`, or `none` when the
message does not match (Python would then raise `AttributeError` on
`.group`). -/
def extract_not_null_column (message : Str) : Option Str :=
  if notNullHead.isPrefixOf message then
    greedySplit (message.drop notNullHead.length) message.length
  else none

/-- Rendering of `repr(binds)` in the execution-error text.  No claim
inspects this string; it is modelled as the bind list joined by commas in
parentheses. -/
def pyRepr (binds : List Str) : Str :=
  chars "(" ++ List.intercalate (chars ", ") binds ++ chars ")"

/-- Translation of `DataStoreMySQL.__format_query_execution_error`
(provider.py lines 423-429). -/
def format_query_execution_error (sql message : Str)
    (binds : Option (List Str)) : Str :=
  chars "execution of this query:\n\n" ++ sql ++ chars "\n\n"
    ++ (match binds with | some bs => pyRepr bs | none => [])
    ++ chars "\n\nproduced this error:\n\n" ++ message

/-- Mapping of integrity error code 1048: raise `ColumnCannotBeNullException`
with the extracted column; when the message does not match the pattern the
Python code raises `AttributeError` from `.group` on `None`. -/
def mapNotNull (message : Str) : DSError :=
  match extract_not_null_column message with
  | some col => DSError.columnCannotBeNull col
  | none => DSError.driver PyErr.attributeError

/-- The errno dispatch shared by the `IntegrityError`/`InternalError` handler
of `DataStoreMySQL.query` (provider.py lines 519-533). -/
def mapQueryErrno (sql : Str) (binds : List Str) (e : PyErr)
    (errno : Nat) (message : Str) : DSError :=
  if errno = 1048 then mapNotNull message
  else if errno = 1062 then DSError.duplicateKey message
  else if errno = 1271 then DSError.illegalMixOfCollations sql binds
  else if errno = 1452 then DSError.foreignKey message
  else DSError.driver e

/-- Error mapping of `DataStoreMySQL.query` (provider.py lines 517-539):
`IntegrityError` and `InternalError` are dispatched on errno,
`ProgrammingError` becomes a formatted `DataStoreException`, anything else
propagates unchanged. -/
def mapQueryError (sql : Str) (binds : List Str) (e : PyErr) : DSError :=
  match e with
  | PyErr.integrityError errno message => mapQueryErrno sql binds e errno message
  | PyErr.internalError errno message => mapQueryErrno sql binds e errno message
  | PyErr.programmingError _ message =>
      DSError.dataStoreException
        (format_query_execution_error sql message (some binds))
  | e2 => DSError.driver e2

/-- Error mapping of `DataStoreMySQL.create` (provider.py lines 362-382):
only `IntegrityError` (codes 1048, 1062, 1452) and `ProgrammingError` are
caught; `InternalError` and everything else propagate unchanged. -/
def mapCreateError (sql : Str) (binds : List Str) (e : PyErr) : DSError :=
  match e with
  | PyErr.integrityError errno message =>
      if errno = 1048 then mapNotNull message
      else if errno = 1062 then DSError.duplicateKey message
      else if errno = 1452 then DSError.foreignKey message
      else DSError.driver e
  | PyErr.programmingError _ message =>
      DSError.dataStoreException
        (format_query_execution_error sql message (some binds))
  | e2 => DSError.driver e2

/-- The binary-literal marker `_binary ` (with trailing space) used by field
names in `create`. -/
def bmark : Str := chars "_binary "

/-- Fuel-driven translation of `re.sub('_binary ', '', key)` (provider.py
line 346): remove every occurrence of the marker, scanning left to right.
Each step consumes at least one character, so `fuel = length` suffices. -/
def stripBinaryAux : Nat → Str → Str
  | 0, s => s
  | _, [] => []
  | fuel + 1, c :: rest =>
      if bmark.isPrefixOf (c :: rest) then
        stripBinaryAux fuel ((c :: rest).drop bmark.length)
      else c :: stripBinaryAux fuel rest

/-- Removal of all `_binary ` marker occurrences from a column name. -/
def stripBinary (s : Str) : Str :=
  stripBinaryAux s.length s

/-- The sentinel test of `__get_binds` and `__get_values` (provider.py
lines 440-441, 477-478): `re.match('current_timestamp', str_value)` is an
anchored prefix match, while `current_date` must be the entire value. -/
def isTimestampSentinel (v : Str) : Bool :=
  (chars "current_timestamp").isPrefixOf v ∨ v = chars "current_date"

/-- The placeholder chosen for one field by `DataStoreMySQL.__get_binds`
(provider.py lines 437-447): the value itself for a timestamp/date sentinel,
`_binary %s` when the key starts with the binary marker
(`re.search('^_binary ', key)`), else `%s`. -/
def bindFor (key v : Str) : Str :=
  if isTimestampSentinel v then v
  else if bmark.isPrefixOf key then chars "_binary %s"
  else chars "%s"

/-- Translation of `DataStoreMySQL.__get_binds` (provider.py lines 432-449);
the empty-data early return coincides with mapping over the empty list. -/
def get_binds (data : List (Str × Str)) : List Str :=
  data.map (fun kv => bindFor kv.1 kv.2)

/-- Translation of `DataStoreMySQL.__get_values` (provider.py lines 469-481):
sentinel values are embedded literally in the statement, so they are dropped
from the bound values. -/
def get_values (vals : List Str) : List Str :=
  vals.filter (fun v => ¬ isTimestampSentinel v)

/-- The column-name list built by `create` (provider.py lines 344-346):
each key with all `_binary ` markers removed. -/
def createKeys (data : List (Str × Str)) : List Str :=
  data.map (fun kv => stripBinary kv.1)

/-- The insert statement text built by `create` (provider.py lines
351-356). -/
def createSql (target : Str) (data : List (Str × Str)) : Str :=
  chars "insert into " ++ target ++ chars "("
    ++ List.intercalate (chars ", ") (createKeys data)
    ++ chars ") values ("
    ++ List.intercalate (chars ", ") (get_binds data)
    ++ chars ")"

/-- Translation of `DataStoreMySQL.__convert_to_prepared` (provider.py lines
319-329): `key = bind` pairs joined by the separator, keys and binds taken in
the same iteration order over `data`. -/
def convert_to_prepared (separator : Str) (data : List (Str × Str)) : Str :=
  List.intercalate separator
    (((data.map Prod.fst).zip (get_binds data)).map
      (fun p => p.1 ++ chars " = " ++ p.2))

/-- The delete statement text built by `delete` (provider.py lines 395-401):
no `where` clause when `data` is empty. -/
def deleteSql (target : Str) (data : List (Str × Str)) : Str :=
  if 0 < data.length then
    chars "delete from " ++ target ++ chars " where "
      ++ convert_to_prepared (chars ", ") data
  else chars "delete from " ++ target

/-- Lower-casing of a modelled string (for the case-insensitive regexes). -/
def lowerStr (s : Str) : Str := s.map Char.toLower

/-- Translation of the read-statement classification in `query` (provider.py
lines 510-513): `re.match('^\(?select\s', sql, re.IGNORECASE)` (an optional
opening parenthesis, then `select`, then a whitespace character) or
`re.match('^show ', sql, re.IGNORECASE)`. -/
def is_select (sql : Str) : Bool :=
  (let t := match sql with
            | c :: rest => if c = '(' then rest else sql
            | [] => sql
   (chars "select").isPrefixOf (lowerStr t) &&
     match t.drop 6 with
     | c :: _ => c.isWhitespace
     | [] => false)
  || (chars "show ").isPrefixOf (lowerStr sql)

/-- Translation of `DataStoreMySQL.query` (provider.py lines 502-556).
`exec` is the driver's behaviour for this statement and `freshHandle` the
connection a (re)connect would open.  Returns the call's outcome together
with the session state and cache as left behind — on a raise, exactly the
mutations performed before the raise (there is no `finally` in the
source). -/
def query (env : Env) (exec : ExecOutcome) (freshHandle : Nat)
    (s0 : SessionState) (cache : Cache) (sql : Str) (binds : List Str) :
    Except DSError QueryResult × SessionState × Cache :=
  match memcache_retrieve env cache s0 with
  | some results =>
      (Except.ok (QueryResult.rows results), reset_memcache s0, cache)
  | none =>
      match connect env freshHandle s0 with
      | Except.error (e, s) => (Except.error e, s, cache)
      | Except.ok s1 =>
          let s2 := get_cursor s1
          match exec with
          | ExecOutcome.err e =>
              (Except.error (mapQueryError sql binds e), s2, cache)
          | ExecOutcome.ok rowcount lastrowid fetched =>
              let s3 := { s2 with row_count := some rowcount,
                                  last_row_id := some lastrowid }
              if is_select sql then
                -- `fetchall` returning the empty tuple is normalised to `[]`;
                -- in this model results are already lists, so the
                -- normalisation is the identity.
                let cache2 := memcache_store env cache s3 fetched
                (Except.ok (QueryResult.rows fetched),
                  reset_memcache (close_cursor s3), cache2)
              else
                (Except.ok QueryResult.success,
                  reset_memcache (close_cursor s3), cache)

/-- Translation of `DataStoreMySQL.create` (provider.py lines 340-392).
Returns the insert id (when requested) and the session state left behind.
The `__last_row_id` attribute is never assigned in `create`. -/
def create (env : Env) (exec : ExecOutcome) (freshHandle : Nat)
    (s0 : SessionState) (target : Str) (data : List (Str × Str))
    (return_insert_id : Bool) :
    Except DSError (Option Nat) × SessionState :=
  if data.length = 0 then (Except.ok none, s0)
  else
    match connect env freshHandle s0 with
    | Except.error (e, s) => (Except.error e, s)
    | Except.ok s1 =>
        let s2 := get_cursor s1
        match exec with
        | ExecOutcome.err e =>
            (Except.error (mapCreateError (createSql target data)
              (get_binds data) e), s2)
        | ExecOutcome.ok rowcount lastrowid _ =>
            let s3 := { s2 with row_count := some rowcount }
            let id := if return_insert_id then some lastrowid else none
            (Except.ok id, close_cursor s3)

/-- Translation of `DataStoreMySQL.delete` (provider.py lines 395-416).
There is no `except` clause: a driver error propagates unchanged, leaving
the cursor open and the cache directive armed. -/
def delete (env : Env) (exec : ExecOutcome) (freshHandle : Nat)
    (s0 : SessionState) (cache : Cache) (target : Str)
    (data : List (Str × Str)) :
    Except DSError Bool × SessionState × Cache :=
  match connect env freshHandle s0 with
  | Except.error (e, s) => (Except.error e, s, cache)
  | Except.ok s1 =>
      let s2 := get_cursor s1
      match exec with
      | ExecOutcome.err e => (Except.error (DSError.driver e), s2, cache)
      | ExecOutcome.ok rowcount _ _ =>
          let s3 := { s2 with row_count := some rowcount }
          let cache2 := memcache_purge env cache s3
          (Except.ok true, reset_memcache (close_cursor s3), cache2)

/-- Python list subscription `l[i]` for a possibly negative `Int` index: a
negative index counts from the end; out of range raises `IndexError`. -/
def pyListGet {α : Type} (l : List α) (i : Int) : Except PyErr α :=
  if 0 ≤ i then
    match l[(i.toNat)]? with
    | some x => Except.ok x
    | none => Except.error PyErr.indexError
  else
    if 0 ≤ (l.length : Int) + i then
      match l[(((l.length : Int) + i).toNat)]? with
      | some x => Except.ok x
      | none => Except.error PyErr.indexError
    else Except.error PyErr.indexError

/-- The index test and subscription of `DataStoreMySQL.nth` (provider.py
lines 487-490): `records[index] if index < len(records) else None`, with
Python subscription semantics (so a negative `index` passes the guard and
counts from the end, raising `IndexError` when out of range). -/
def nthIndex (records : List Row) (index : Int) : Except PyErr (Option Row) :=
  if index < (records.length : Int) then
    match pyListGet records index with
    | Except.ok r => Except.ok (some r)
    | Except.error e => Except.error e
  else Except.ok none

/-- Translation of `DataStoreMySQL.nth` (provider.py lines 484-490): run
`query`, then subscript the result list.  When `query` returns `True` (a
write statement), `len(records)` raises `TypeError` in Python. -/
def nth (env : Env) (exec : ExecOutcome) (freshHandle : Nat)
    (s0 : SessionState) (cache : Cache) (index : Int) (sql : Str)
    (binds : List Str) :
    Except DSError (Option Row) × SessionState × Cache :=
  match query env exec freshHandle s0 cache sql binds with
  | (Except.error e, s1, c1) => (Except.error e, s1, c1)
  | (Except.ok (QueryResult.rows records), s1, c1) =>
      (match nthIndex records index with
       | Except.ok r => Except.ok r
       | Except.error e => Except.error (DSError.driver e), s1, c1)
  | (Except.ok QueryResult.success, s1, c1) =>
      (Except.error (DSError.driver PyErr.typeError), s1, c1)

/-- Translation of `DataStoreMySQL.commit` (provider.py lines 252-264).
The `Bool` in the result records whether `self.__mysql.commit()` was
invoked against the physical handle. -/
def commit (env : Env) (freshHandle : Nat) (ignore_exceptions : Bool)
    (s0 : SessionState) : Except DSError (SessionState × Bool) :=
  if s0.mysql = none then
    if ¬ ignore_exceptions then
      Except.error (DSError.dataStoreException (chars
        ("transaction cannot be committed because a database "
          ++ "connection has not been established yet")))
    else Except.ok (s0, false)
  else
    if env.unitTest then Except.ok (s0, false)
    else
      match connect env freshHandle s0 with
      | Except.error (e, _) => Except.error e
      | Except.ok s1 => Except.ok (s1, true)

/-- Translation of `DataStoreMySQL.rollback` (provider.py lines 559-568).
The `Bool` records whether `self.__mysql.rollback()` was invoked against the
physical handle.  Unlike `commit`, there is no `Context.env_unit_test()`
guard in the source. -/
def rollback (env : Env) (freshHandle : Nat) (ignore_exceptions : Bool)
    (s0 : SessionState) : Except DSError (SessionState × Bool) :=
  if s0.mysql = none then
    if ¬ ignore_exceptions then
      Except.error (DSError.dataStoreException (chars
        ("transaction cannot be rolled back because a database "
          ++ "connection has not been established yet")))
    else Except.ok (s0, false)
  else
    match connect env freshHandle s0 with
    | Except.error (e, _) => Except.error e
    | Except.ok s1 => Except.ok (s1, true)

/-- The shared mutable state of `DataStoreProvider` for one execution
context: the class attribute `__persistent` (connection name to a map from
process id to Session), the thread-local attributes keyed by connection name,
and an allocator for the identity of the next `DataStoreMySQL()` object.
Sessions are represented by their identity (a `Nat`): the claims this model
serves are about object identity, not about the sessions' inner state. -/
structure RegistryState : Type where
  persistentMap : List (Str × List (Nat × Nat))
  threadLocal : List (Str × Nat)
  nextId : Nat
deriving DecidableEq

/-- Lookup in the pid-to-session map of one `__persistent[connection]`
entry. -/
def plookup : List (Nat × Nat) → Nat → Option Nat
  | [], _ => none
  | (k, v) :: rest, key => if k = key then some v else plookup rest key

/-- Update of the pid-to-session map of one `__persistent[connection]`
entry. -/
def pset : List (Nat × Nat) → Nat → Nat → List (Nat × Nat)
  | [], key, v => [(key, v)]
  | (k, w) :: rest, key, v =>
      if k = key then (key, v) :: rest else (k, w) :: pset rest key v

/-- The `if connection not in self.__persistent: self.__persistent[connection]
= {}` step of `get_data_store_handle` (provider.py lines 628-629). -/
def ensure_connection_entry (reg : RegistryState) (connection : Str) :
    RegistryState :=
  if (alookup reg.persistentMap connection).isNone then
    { reg with persistentMap := aset reg.persistentMap connection [] }
  else reg

/-- The session-selection core of `get_data_store_handle` (provider.py lines
631-643): reuse the Session already bound to this execution context for
`connection` if any; otherwise, for a persistent request, look up or lazily
create the process-wide Session for `(connection, pid)` and bind it to the
context; for a non-persistent request, create a fresh Session private to this
call and bind it. -/
def get_handle_core (pid : Nat) (reg : RegistryState) (connection : Str)
    (persistent : Bool) : Nat × RegistryState :=
  match alookup reg.threadLocal connection with
  | some sid => (sid, reg)
  | none =>
      if persistent then
        match plookup ((alookup reg.persistentMap connection).getD []) pid with
        | some sid =>
            (sid, { reg with threadLocal := aset reg.threadLocal connection sid })
        | none =>
            (reg.nextId,
              { reg with
                  persistentMap := aset reg.persistentMap connection
                    (pset ((alookup reg.persistentMap connection).getD [])
                      pid reg.nextId),
                  threadLocal := aset reg.threadLocal connection reg.nextId,
                  nextId := reg.nextId + 1 })
      else
        (reg.nextId,
          { reg with
              threadLocal := aset reg.threadLocal connection reg.nextId,
              nextId := reg.nextId + 1 })

/-- Translation of `DataStoreProvider.get_data_store_handle` (provider.py
lines 623-655).  `dataStore` is the `ConfigManager` value `data store`;
`pid` is `os.getpid()`.  Returns the identity of the returned Session (on
which the source then calls `select_db(connection, db)`, which returns the
same object) together with the updated registry state.  The `StatsLogger`
call is an external side effect with no bearing on the result. -/
def get_data_store_handle (dataStore : Str) (pid : Nat)
    (reg0 : RegistryState) (connection db : Str) (persistent : Bool) :
    Except DSError (Nat × RegistryState) :=
  if dataStore = chars "mysql" then
    Except.ok
      (get_handle_core pid (ensure_connection_entry reg0 connection)
        connection persistent)
  else
    Except.error (DSError.dataStoreException
      (chars "configured data store is not currently supported"))

/-! ### Concrete fixtures used by witnesses and counterexamples -/

/-- A session bound to connection `primary` and database `db1` with an
established physical handle (identity 7), non-persistent, no open cursor and
no armed cache directive. -/
def baseSession : SessionState :=
  { connection_name := some (chars "primary"), charset := chars "utf8",
    db_name := some (chars "db1"), memcache_key := none, memcache_ttl := none,
    ping_interval := 300, inactive_since := 0, requests := 0, hits := 0,
    persistent := false, mysql := some 7, rdbms_mysql := none, cursor := none,
    row_count := none, last_row_id := none }

/-- An environment with the test-isolation flag off. -/
def baseEnv : Env := { unitTest := false, now := 10, connectionData := [] }

/-- An environment with the test-isolation flag set. -/
def utEnv : Env := { unitTest := true, now := 10, connectionData := [] }

/-! ### C1 -/

/-- C1: the claim says `select_db` with a database name that differs from the
currently bound pair invalidates the physical handle so that the next
operation opens a fresh connection.  The code contradicts this: the
`self.__mysql = None` on provider.py line 200 is written inside `RDBMSBase`,
so Python name mangling makes it assign `_RDBMSBase__mysql`, not the
`_DataStoreMySQL__mysql` handle that `connect` consults.  Starting from a
session holding handle 7 bound to (`primary`, `db1`), rebinding to
(`primary`, `db2`) leaves the physical handle equal to `some 7`, and the next
`connect` (offered fresh handle 99) returns with the state unchanged —
reusing the stale handle 7 against the old database instead of opening
handle 99 against `db2`. -/
theorem c1_select_db_keeps_stale_handle :
    (select_db baseSession (chars "primary") (chars "db2")).mysql = some 7 ∧
    connect baseEnv 99 (select_db baseSession (chars "primary") (chars "db2"))
      = Except.ok (select_db baseSession (chars "primary") (chars "db2")) := by
  decide

/-! ### C2 -/

/-- A session with an armed cache directive (key `k`, ttl 60) and an
established handle, used to exercise the failure path of `query`. -/
def c2Session : SessionState :=
  { baseSession with memcache_key := some (chars "k"),
                     memcache_ttl := some 60 }

/-- C2: counterexample to "on every exit of `query` — success or raised
error — any open cursor is released and any armed cache directive is
cleared".  `query` has no `finally` clause: when `cursor.execute` raises a
duplicate-key error (integrity error 1062), the raised `Except.error` leaves
the session with the cursor still open (`some ()`) and the cache directive
still armed (`memcache_key = some k`, `memcache_ttl = some 60`). -/
theorem c2_error_exit_skips_cleanup :
    query baseEnv (ExecOutcome.err (PyErr.integrityError 1062 (chars "dup")))
        99 c2Session [] (chars "insert into t values (%s)") [chars "x"]
      = (Except.error (DSError.duplicateKey (chars "dup")),
         { c2Session with cursor := some () }, []) := by
  decide

/-- C2 (amended): starting from a session with no open cursor, on every
SUCCESSFUL exit of `query` (cache hit or completed execution) the cursor is
closed and the cache directive is cleared; on a raised error the cleanup is
skipped (see the counterexample). -/
theorem c2_success_exit_cleans_up (env : Env) (exec : ExecOutcome) (fh : Nat)
    (s : SessionState) (cache : Cache) (sql : Str) (binds : List Str)
    (r : QueryResult) (s1 : SessionState) (c1 : Cache)
    (hcur : s.cursor = none)
    (h : query env exec fh s cache sql binds = (Except.ok r, s1, c1)) :
    s1.cursor = none ∧ s1.memcache_key = none ∧ s1.memcache_ttl = none := by
  unfold query at h
  split at h
  · -- cache hit: the returned session is `reset_memcache s`
    simp only [Prod.mk.injEq] at h
    obtain ⟨-, h2, -⟩ := h
    subst h2
    exact ⟨hcur, rfl, rfl⟩
  · split at h
    · -- connect raised: the call returned an error, contradiction
      simp only [Prod.mk.injEq] at h
      exact absurd h.1 (by simp)
    · split at h
      · -- execute raised: the call returned an error, contradiction
        simp only [Prod.mk.injEq] at h
        exact absurd h.1 (by simp)
      · -- execute succeeded: both result branches close and reset
        split at h <;>
        · simp only [Prod.mk.injEq] at h
          obtain ⟨-, h2, -⟩ := h
          subst h2
          exact ⟨rfl, rfl, rfl⟩

/-- C2 witness: a successful non-select execution from `baseSession` leaves
no cursor and no cache directive. -/
theorem c2_success_exit_cleans_up_witness :
    ({ baseSession with row_count := some 1,
                        last_row_id := some 5 } : SessionState).cursor = none ∧
    ({ baseSession with row_count := some 1,
                        last_row_id := some 5 } : SessionState).memcache_key
      = none ∧
    ({ baseSession with row_count := some 1,
                        last_row_id := some 5 } : SessionState).memcache_ttl
      = none :=
  c2_success_exit_cleans_up baseEnv (ExecOutcome.ok 1 5 []) 99 baseSession []
    (chars "update t set a = 1") [] QueryResult.success
    { baseSession with row_count := some 1, last_row_id := some 5 } []
    (by decide) (by decide)

/-! ### C3 -/

/-- C3: counterexample to "when the test-isolation flag is set, commit and
rollback on a Session with an established physical handle are both no-ops".
`DataStoreMySQL.commit` checks `Context.env_unit_test()` and returns early,
but `DataStoreMySQL.rollback` (provider.py lines 559-568) has no such guard:
with the test-isolation flag set and handle 7 established, `rollback` still
invokes `self.__mysql.rollback()` against the physical handle (the `true` in
the result records that invocation), while `commit` does not (`false`). -/
theorem c3_rollback_not_noop_under_test_isolation :
    commit utEnv 99 false baseSession = Except.ok (baseSession, false) ∧
    rollback utEnv 99 false baseSession = Except.ok (baseSession, true) := by
  decide

/-- C3 (amended): with the test-isolation flag set and an established
physical handle, `commit` is a no-op (it never reaches
`self.__mysql.commit()`), but `rollback` is not: it still issues
`self.__mysql.rollback()` against the physical handle.  The session is
stated non-persistent so that the reconnect bookkeeping inside `connect`
leaves the state literally unchanged. -/
theorem c3_commit_noop_rollback_issued (env : Env) (fh : Nat) (ig : Bool)
    (s : SessionState) (h : Nat) (hmy : s.mysql = some h)
    (hut : env.unitTest = true) (hp : s.persistent = false) :
    commit env fh ig s = Except.ok (s, false) ∧
    rollback env fh ig s = Except.ok (s, true) := by
  constructor
  · unfold commit
    simp [hmy, hut]
  · unfold rollback connect connect_core bump_requests
    simp [hmy, hp]

/-- C3 witness: the concrete session `baseSession` (handle 7, non-persistent)
under the test-isolation environment. -/
theorem c3_commit_noop_rollback_issued_witness :
    commit utEnv 99 false baseSession = Except.ok (baseSession, false) ∧
    rollback utEnv 99 false baseSession = Except.ok (baseSession, true) :=
  c3_commit_noop_rollback_issued utEnv 99 false baseSession 7 (by decide)
    (by decide) (by decide)

/-! ### C4 -/

/-- Looking up the key just written by `aset` yields the written value. -/
theorem alookup_aset_self {β : Type} (l : List (Str × β)) (k : Str) (v : β) :
    alookup (aset l k v) k = some v := by
  induction l with
  | nil => simp [aset, alookup]
  | cons kv rest ih =>
      obtain ⟨k1, w⟩ := kv
      by_cases h : k1 = k <;> simp [aset, alookup, h, ih]

/-- Whatever `get_handle_core` returns is bound to the execution context for
that connection name in the resulting registry state. -/
theorem get_handle_core_binds (pid : Nat) (reg : RegistryState) (conn : Str)
    (p : Bool) :
    alookup (get_handle_core pid reg conn p).2.threadLocal conn
      = some (get_handle_core pid reg conn p).1 := by
  unfold get_handle_core
  split
  next sid heq => simpa using heq
  next heq =>
    split
    · split <;> simp [alookup_aset_self]
    · simp [alookup_aset_self]

/-- The `ensure_connection_entry` step touches only the persistent map. -/
theorem ensure_connection_entry_threadLocal (reg : RegistryState)
    (conn : Str) :
    (ensure_connection_entry reg conn).threadLocal = reg.threadLocal := by
  unfold ensure_connection_entry
  split <;> rfl

/-- C4 counterexample: starting from an empty registry, two NON-persistent
requests in the same execution context for the same connection name both
return the Session with identity 0 — the second request finds the
context-local binding left by the first and reuses it, contradicting the
claim that two non-persistent requests never return the identical Session
object. -/
theorem c4_nonpersistent_requests_share_session :
    get_data_store_handle (chars "mysql") 42 ⟨[], [], 0⟩ (chars "primary")
        (chars "db") false
      = Except.ok (0, ⟨[(chars "primary", [])], [(chars "primary", 0)], 1⟩) ∧
    get_data_store_handle (chars "mysql") 42
        ⟨[(chars "primary", [])], [(chars "primary", 0)], 1⟩ (chars "primary")
        (chars "db") false
      = Except.ok (0, ⟨[(chars "primary", [])], [(chars "primary", 0)], 1⟩) := by
  decide

/-- C4 (amended): within one execution context, the first request for a
connection name wins: ANY second request for the same connection name —
whatever `persistent` flag either call passed — returns the identical
Session object bound by the first.  In particular two persistent requests
return the identical Session (as the claim states), but so do two
non-persistent requests; only requests from different execution contexts
get distinct non-persistent Sessions. -/
theorem c4_first_request_wins (ds : Str) (pid : Nat)
    (reg reg1 reg2 : RegistryState) (conn db db2 : Str) (p1 p2 : Bool)
    (sid1 sid2 : Nat)
    (h1 : get_data_store_handle ds pid reg conn db p1 = Except.ok (sid1, reg1))
    (h2 : get_data_store_handle ds pid reg1 conn db2 p2
      = Except.ok (sid2, reg2)) :
    sid2 = sid1 := by
  unfold get_data_store_handle at h1 h2
  by_cases hds : ds = chars "mysql"
  · simp only [hds, if_true] at h1 h2
    have h1' : get_handle_core pid (ensure_connection_entry reg conn) conn p1
        = (sid1, reg1) := by
      simpa using h1
    have hb : alookup reg1.threadLocal conn = some sid1 := by
      have hcore := get_handle_core_binds pid
        (ensure_connection_entry reg conn) conn p1
      rw [h1'] at hcore
      exact hcore
    have hb2 : alookup (ensure_connection_entry reg1 conn).threadLocal conn
        = some sid1 := by
      rw [ensure_connection_entry_threadLocal]
      exact hb
    have hcore2 : get_handle_core pid (ensure_connection_entry reg1 conn)
        conn p2 = (sid1, ensure_connection_entry reg1 conn) := by
      unfold get_handle_core
      rw [hb2]
    rw [hcore2] at h2
    have := (Prod.mk.injEq _ _ _ _).mp (by simpa using h2)
    exact this.1.symm
  · simp [hds] at h1

/-- C4 witness: two persistent requests from an empty registry in the same
context both return Session identity 0 (instantiating the amended theorem's
hypotheses with a concrete run). -/
theorem c4_first_request_wins_witness : (0 : Nat) = 0 :=
  c4_first_request_wins (chars "mysql") 42 ⟨[], [], 0⟩
    ⟨[(chars "primary", [(42, 0)])], [(chars "primary", 0)], 1⟩
    ⟨[(chars "primary", [(42, 0)])], [(chars "primary", 0)], 1⟩
    (chars "primary") (chars "db") (chars "db") true true 0 0
    (by decide) (by decide)

/-! ### C5 -/

/-- C5: with an armed cache directive whose key has a cached value (and the
test-isolation flag off, under which the spec designates the whole cache
bridge a no-op), `query` returns the cached rows immediately and clears the
directive.  The driver oracle `exec` and the fresh handle `fh` are
universally quantified and absent from the result: the physical handle is
never reached — `connect` is not invoked (`requests`, `hits` and `mysql` are
unchanged in `reset_memcache s`) and no statement is executed. -/
theorem c5_cache_hit_short_circuits (env : Env) (exec : ExecOutcome)
    (fh : Nat) (s : SessionState) (cache : Cache) (sql : Str)
    (binds : List Str) (k : Str) (v : List Row)
    (hkey : s.memcache_key = some k) (hut : env.unitTest = false)
    (hcache : alookup cache k = some v) :
    query env exec fh s cache sql binds
      = (Except.ok (QueryResult.rows v), reset_memcache s, cache) := by
  have hret : memcache_retrieve env cache s = some v := by
    unfold memcache_retrieve
    rw [hkey, hut]
    simpa using hcache
  unfold query
  rw [hret]

/-- The cached result set used by the C5 witness. -/
def c5Cache : Cache := [(chars "k", [[(chars "a", chars "1")]])]

/-- C5 witness: from `c2Session` (directive armed under key `k`) with the
cached value present, `query` returns the cached rows and clears the
directive even though the driver oracle would raise if it were ever
consulted. -/
theorem c5_cache_hit_short_circuits_witness :
    query baseEnv (ExecOutcome.err PyErr.typeError) 99 c2Session c5Cache
        (chars "select * from t") []
      = (Except.ok (QueryResult.rows [[(chars "a", chars "1")]]),
         reset_memcache c2Session, c5Cache) :=
  c5_cache_hit_short_circuits baseEnv (ExecOutcome.err PyErr.typeError) 99
    c2Session c5Cache (chars "select * from t") [] (chars "k")
    [[(chars "a", chars "1")]] (by decide) (by decide) (by decide)

/-! ### C6 -/

/-- With an established physical handle, `connect` never raises. -/
theorem connect_ok_of_handle (env : Env) (fh : Nat) (s : SessionState)
    (h : Nat) (hmy : s.mysql = some h) :
    ∃ s1, connect env fh s = Except.ok s1 := by
  have hb : (bump_requests s).mysql = some h := by
    unfold bump_requests
    split <;> simpa using hmy
  unfold connect connect_core
  simp only [hb, Option.isSome_some, eq_self_iff_true, if_true]
  split
  · split <;> exact ⟨_, rfl⟩
  · exact ⟨_, rfl⟩

/-- C6: a not-null violation (integrity error 1048) whose driver message is
`Column 'email' cannot be null` makes `query` raise
`ColumnCannotBeNullException` carrying exactly the column name `email`
parsed out of the message by `__extract_not_null_column`.  The session
needs no armed cache directive and an established handle so that execution
is reached. -/
theorem c6_null_column_error_carries_column (env : Env) (fh : Nat)
    (s : SessionState) (cache : Cache) (sql : Str) (binds : List Str)
    (h : Nat) (hkey : s.memcache_key = none) (hmy : s.mysql = some h) :
    (query env
        (ExecOutcome.err (PyErr.integrityError 1048
          (chars "Column \x27email\x27 cannot be null"))) fh s cache sql
        binds).1
      = Except.error (DSError.columnCannotBeNull (chars "email")) := by
  have hmiss : memcache_retrieve env cache s = none := by
    unfold memcache_retrieve
    rw [hkey]
  obtain ⟨s1, hc⟩ := connect_ok_of_handle env fh s h hmy
  have hmap : mapQueryError sql binds
      (PyErr.integrityError 1048 (chars "Column \x27email\x27 cannot be null"))
      = DSError.columnCannotBeNull (chars "email") := by
    simp only [mapQueryError, mapQueryErrno, if_pos]
    decide
  unfold query
  rw [hmiss, hc]
  show Except.error (mapQueryError sql binds
      (PyErr.integrityError 1048 (chars "Column \x27email\x27 cannot be null")))
    = Except.error (DSError.columnCannotBeNull (chars "email"))
  rw [hmap]

/-- C6 witness: the concrete session `baseSession` (no directive, handle 7)
raises the not-null error kind carrying column `email`. -/
theorem c6_null_column_error_carries_column_witness :
    (query baseEnv
        (ExecOutcome.err (PyErr.integrityError 1048
          (chars "Column \x27email\x27 cannot be null"))) 99 baseSession []
        (chars "insert into users(email) values (%s)") []).1
      = Except.error (DSError.columnCannotBeNull (chars "email")) :=
  c6_null_column_error_carries_column baseEnv 99 baseSession []
    (chars "insert into users(email) values (%s)") [] 7 (by decide)
    (by decide)

/-! ### C7 -/

/-- C7: for a non-empty field-value mapping, the column list and the
placeholder list of the insert statement built by `create` have equal length
and matching order: at every position `i`, the column is the field name with
the binary-literal marker removed, and the placeholder is the positional
marker `%s` unless the field's value is a `current_timestamp*`/`current_date`
sentinel (embedded literally) or the field name carries the `_binary `
marker (placeholder `_binary %s`, marker stripped from the column). -/
theorem c7_create_column_placeholder_alignment (target : Str)
    (data : List (Str × Str)) (i : Nat) (kv : Str × Str)
    (hne : data ≠ []) (hi : data[i]? = some kv) :
    (createKeys data).length = (get_binds data).length ∧
    createSql target data
      = chars "insert into " ++ target ++ chars "("
        ++ List.intercalate (chars ", ") (createKeys data)
        ++ chars ") values ("
        ++ List.intercalate (chars ", ") (get_binds data) ++ chars ")" ∧
    (createKeys data)[i]? = some (stripBinary kv.1) ∧
    (get_binds data)[i]?
      = some (if isTimestampSentinel kv.2 then kv.2
          else if bmark.isPrefixOf kv.1 then chars "_binary %s"
          else chars "%s") := by
  refine ⟨by simp [createKeys, get_binds], rfl, ?_, ?_⟩
  · simp [createKeys, List.getElem?_map, hi]
  · simp [get_binds, List.getElem?_map, hi, bindFor]

/-- The field-value mapping used by the C7 witness: a timestamp sentinel, a
binary-marked field and a plain field. -/
def c7Data : List (Str × Str) :=
  [(chars "created_at", chars "current_timestamp"),
   (chars "_binary uuid", chars "abc"),
   (chars "name", chars "bob")]

/-- C7 witness: the alignment at position 1 of the concrete mapping
`c7Data` (the binary-marked field). -/
theorem c7_create_column_placeholder_alignment_witness :
    (createKeys c7Data).length = (get_binds c7Data).length ∧
    createSql (chars "t") c7Data
      = chars "insert into " ++ chars "t" ++ chars "("
        ++ List.intercalate (chars ", ") (createKeys c7Data)
        ++ chars ") values ("
        ++ List.intercalate (chars ", ") (get_binds c7Data) ++ chars ")" ∧
    (createKeys c7Data)[1]?
      = some (stripBinary (chars "_binary uuid")) ∧
    (get_binds c7Data)[1]?
      = some (if isTimestampSentinel (chars "abc") then chars "abc"
          else if bmark.isPrefixOf (chars "_binary uuid")
            then chars "_binary %s"
          else chars "%s") :=
  c7_create_column_placeholder_alignment (chars "t") c7Data 1
    (chars "_binary uuid", chars "abc") (by decide) (by decide)

/-! ### C8 -/

/-- C8: `delete` with an empty key-value mapping builds exactly
`delete from target` — no `where` clause (intentional delete-all semantics) —
and, after a successful execution with an active cache entry (key `k`, test
isolation off), returns `True` with the cursor closed, the cache directive
cleared and the cached entry for `k` purged from the external cache.  The
session is stated non-persistent with an established handle so `connect`
leaves it unchanged. -/
theorem c8_delete_all_without_where (env : Env) (fh : Nat) (s : SessionState)
    (cache : Cache) (target k : Str) (h : Nat) (rc : Int) (lid : Nat)
    (rows : List Row) (hmy : s.mysql = some h) (hp : s.persistent = false)
    (hkey : s.memcache_key = some k) (hut : env.unitTest = false) :
    deleteSql target [] = chars "delete from " ++ target ∧
    delete env (ExecOutcome.ok rc lid rows) fh s cache target []
      = (Except.ok true,
         { s with cursor := none, row_count := some rc,
                  memcache_key := none, memcache_ttl := none },
         aremove cache k) := by
  constructor
  · simp [deleteSql]
  · have hc : connect env fh s = Except.ok s := by
      unfold connect connect_core bump_requests
      simp [hp, hmy]
    unfold delete
    rw [hc]
    rcases hcur : s.cursor with - | u
    · simp [get_cursor, close_cursor, reset_memcache, memcache_purge, hcur,
        hkey, hut]
    · simp [get_cursor, close_cursor, reset_memcache, memcache_purge, hcur,
        hkey, hut]

/-- C8 witness: the concrete session with an armed directive under key `k`
(`c2Session`), the cached entry present, deleting everything from table
`t`. -/
theorem c8_delete_all_without_where_witness :
    deleteSql (chars "t") [] = chars "delete from " ++ chars "t" ∧
    delete baseEnv (ExecOutcome.ok 3 0 []) 99 c2Session c5Cache (chars "t") []
      = (Except.ok true,
         { c2Session with cursor := none, row_count := some 3,
                          memcache_key := none, memcache_ttl := none },
         aremove c5Cache (chars "k")) :=
  c8_delete_all_without_where baseEnv 99 c2Session c5Cache (chars "t")
    (chars "k") 7 3 0 [] (by decide) (by decide) (by decide) (by decide)

/-! ### C9 -/

/-- C9: counterexample to "nth with a negative index on an empty result
returns none".  On an empty result the guard `index < len(records)` is
satisfied by `-1 < 0`, so the code subscripts `records[-1]`, which raises
`IndexError` in Python — the call propagates an error instead of returning
none. -/
theorem c9_negative_index_on_empty_raises :
    nth baseEnv (ExecOutcome.ok 0 0 []) 99 baseSession [] (-1)
        (chars "select * from t") []
      = (Except.error (DSError.driver PyErr.indexError),
         { baseSession with row_count := some 0, last_row_id := some 0 },
         []) := by
  decide

/-- C9 (amended): for a result sequence of length `n` and a negative index
`i` with `-n ≤ i < 0`, the subscription step of `nth` returns the record at
position `n + i` (so `-1` yields the last record) — but a negative index
below `-n`, and in particular any negative index on an empty result, raises
`IndexError` (propagated out of `nth`) rather than returning none. -/
theorem c9_negative_index_counts_from_end (records : List Row) (i : Int)
    (hneg : i < 0) (hin : -(records.length : Int) ≤ i) :
    nthIndex records i
      = Except.ok records[(((records.length : Int) + i).toNat)]? ∧
    records[(((records.length : Int) + i).toNat)]?.isSome = true := by
  have h0 : (0 : Int) ≤ (records.length : Int) + i := by omega
  have h1 : (((records.length : Int) + i).toNat) < records.length := by omega
  have hx : records[(((records.length : Int) + i).toNat)]?
      = some (records.get ⟨(((records.length : Int) + i).toNat), h1⟩) := by
    simp [List.get_eq_getElem, List.getElem?_eq_getElem h1]
  have hget : pyListGet records i
      = Except.ok
          (records.get ⟨(((records.length : Int) + i).toNat), h1⟩) := by
    unfold pyListGet
    rw [if_neg (by omega), if_pos h0, hx]
  constructor
  · unfold nthIndex
    rw [if_pos (by omega), hget, hx]
  · rw [hx]
    rfl

/-- C9 witness: a one-row result subscripted at `-1` yields the (only and
last) record. -/
theorem c9_negative_index_counts_from_end_witness :
    nthIndex [[(chars "a", chars "1")]] (-1)
      = Except.ok
          ([[(chars "a", chars "1")]] :
            List Row)[((((([[(chars "a", chars "1")]] :
              List Row).length) : Int) + (-1)).toNat)]? ∧
    (([[(chars "a", chars "1")]] :
        List Row)[((((([[(chars "a", chars "1")]] :
          List Row).length) : Int) + (-1)).toNat)]?).isSome = true :=
  c9_negative_index_counts_from_end [[(chars "a", chars "1")]] (-1)
    (by decide) (by decide)

/-! ### C10 -/

/-- The reuse/ping/open logic of `connect` never changes the stored
last-insert id. -/
theorem connect_core_last_row_id (env : Env) (fh : Nat) (s s1 : SessionState)
    (h : connect_core env fh s = Except.ok s1) :
    s1.last_row_id = s.last_row_id := by
  unfold connect_core at h
  split at h
  · split at h
    · split at h
      · injection h with h2
        subst h2
        rfl
      · injection h with h2
        subst h2
        rfl
    · injection h with h2
      subst h2
      rfl
  · split at h
    · exact Except.noConfusion h
    · split at h
      · exact Except.noConfusion h
      · split at h
        · exact Except.noConfusion h
        · injection h with h2
          subst h2
          rfl

/-- A successful `connect` never changes the stored last-insert id. -/
theorem connect_last_row_id (env : Env) (fh : Nat) (s s1 : SessionState)
    (h : connect env fh s = Except.ok s1) :
    s1.last_row_id = s.last_row_id := by
  have h2 := connect_core_last_row_id env fh (bump_requests s) s1
    (by simpa [connect] using h)
  rw [h2]
  unfold bump_requests
  split <;> rfl

/-- C10: `create` never assigns the stored last-insert id: after any
successful `create` call, `get_last_row_id` returns the same value as before
the call (`create` hands the new identifier back directly via the cursor and
assigns only `__row_count`; only `query` assigns `__last_row_id`). -/
theorem c10_create_preserves_last_insert_id (env : Env) (exec : ExecOutcome)
    (fh : Nat) (s : SessionState) (target : Str) (data : List (Str × Str))
    (rid : Bool) (v : Option Nat) (s1 : SessionState)
    (h : create env exec fh s target data rid = (Except.ok v, s1)) :
    get_last_row_id s1 = get_last_row_id s := by
  unfold create at h
  split at h
  · simp only [Prod.mk.injEq] at h
    rw [← h.2]
  · split at h
    · simp only [Prod.mk.injEq] at h
      exact absurd h.1 (by simp)
    · next s2 hc =>
      cases exec with
      | err e =>
          simp only [Prod.mk.injEq] at h
          exact absurd h.1 (by simp)
      | ok rc lid fetched =>
          simp only [Prod.mk.injEq] at h
          have hlast := connect_last_row_id env fh s s2 hc
          rw [← h.2]
          unfold get_last_row_id close_cursor get_cursor
          split <;> simpa using hlast

/-- C10 witness: a successful concrete `create` from `baseSession` leaves
`get_last_row_id` unchanged. -/
theorem c10_create_preserves_last_insert_id_witness :
    get_last_row_id ({ baseSession with row_count := some 1 } : SessionState)
      = get_last_row_id baseSession :=
  c10_create_preserves_last_insert_id baseEnv (ExecOutcome.ok 1 5 []) 99
    baseSession (chars "t") [(chars "a", chars "1")] true (some 5)
    { baseSession with row_count := some 1 } (by decide)

end TinyAPI
